import Mathlib

/-
Verification of the Terraform-state → Ansible-inventory converter
(`inventory.py`): a shallow embedding of its core pipeline
(record construction, resource extraction, reference resolution,
inventory building) together with proofs about it.

The embedding models Python semantics explicitly:
  * JSON-like values (`JVal`, with `JArr`/`JObj` for the nested arrays and
    dicts) stand for the parsed state document;
  * dictionary access `d[k]` is `jget`, raising `PyErr.keyError` on a
    missing key and `PyErr.typeError` on a non-dict;
  * `len`, `x[0]`, membership and truthiness get their Python meanings;
  * a Python attribute that may never have been assigned is an `Option`
    whose `none` raises `PyErr.attrError` when the code reads it;
  * Python dicts keyed by resource ids / host names are insertion-ordered
    association lists: inserting an existing key overwrites in place,
    a new key is appended.
-/

mutual

/-- JSON-like values: the shape of a parsed Terraform state document. -/
inductive JVal where
  | null : JVal
  | bool : Bool → JVal
  | num : Int → JVal
  | str : String → JVal
  | arr : JArr → JVal
  | obj : JObj → JVal

/-- A JSON array (a Python list). -/
inductive JArr where
  | nil : JArr
  | cons : JVal → JArr → JArr

/-- A JSON object (a Python dict with string keys, in insertion order). -/
inductive JObj where
  | nil : JObj
  | cons : String → JVal → JObj → JObj

end

/-- Build a `JArr` from a list literal. -/
def JVal.ofList : List JVal → JArr
  | [] => .nil
  | x :: xs => .cons x (JVal.ofList xs)

/-- Build a `JObj` from a list of key/value pairs. -/
def JVal.ofPairs : List (String × JVal) → JObj
  | [] => .nil
  | (k, v) :: xs => .cons k v (JVal.ofPairs xs)

/-- The underlying list of a `JArr`. -/
def JArr.toList : JArr → List JVal
  | .nil => []
  | .cons x xs => x :: JArr.toList xs

mutual

/-- Python `==` on JSON values (structural equality). -/
def JVal.beq : JVal → JVal → Bool
  | .null, .null => true
  | .bool x, .bool y => x == y
  | .num x, .num y => x == y
  | .str x, .str y => x == y
  | .arr xs, .arr ys => JArr.beq xs ys
  | .obj xs, .obj ys => JObj.beq xs ys
  | _, _ => false

/-- Python `==` on JSON arrays. -/
def JArr.beq : JArr → JArr → Bool
  | .nil, .nil => true
  | .cons x xs, .cons y ys => JVal.beq x y && JArr.beq xs ys
  | _, _ => false

/-- Python `==` on JSON objects. -/
def JObj.beq : JObj → JObj → Bool
  | .nil, .nil => true
  | .cons k v xs, .cons k2 v2 ys => k == k2 && JVal.beq v v2 && JObj.beq xs ys
  | _, _ => false

end

mutual

theorem JVal.beq_refl : ∀ a : JVal, JVal.beq a a = true
  | .null => rfl
  | .bool x => by simp [JVal.beq]
  | .num x => by simp [JVal.beq]
  | .str x => by simp [JVal.beq]
  | .arr xs => by simp [JVal.beq, JArr.arr_beq_refl xs]
  | .obj xs => by simp [JVal.beq, JObj.obj_beq_refl xs]

theorem JArr.arr_beq_refl : ∀ xs : JArr, JArr.beq xs xs = true
  | .nil => rfl
  | .cons x xs => by simp [JArr.beq, JVal.beq_refl x, JArr.arr_beq_refl xs]

theorem JObj.obj_beq_refl : ∀ xs : JObj, JObj.beq xs xs = true
  | .nil => rfl
  | .cons k v xs => by simp [JObj.beq, JVal.beq_refl v, JObj.obj_beq_refl xs]

end

mutual

theorem JVal.eq_of_beq : ∀ {a b : JVal}, JVal.beq a b = true → a = b
  | .null, .null, _ => rfl
  | .bool x, .bool y, h => by simp [JVal.beq] at h; rw [h]
  | .num x, .num y, h => by simp [JVal.beq] at h; rw [h]
  | .str x, .str y, h => by simp [JVal.beq] at h; rw [h]
  | .arr xs, .arr ys, h => by
    rw [JArr.arr_eq_of_beq (show JArr.beq xs ys = true from h)]
  | .obj xs, .obj ys, h => by
    rw [JObj.obj_eq_of_beq (show JObj.beq xs ys = true from h)]

theorem JArr.arr_eq_of_beq : ∀ {xs ys : JArr}, JArr.beq xs ys = true → xs = ys
  | .nil, .nil, _ => rfl
  | .cons x xs, .cons y ys, h => by
    simp only [JArr.beq, Bool.and_eq_true] at h
    rw [JVal.eq_of_beq h.1, JArr.arr_eq_of_beq h.2]

theorem JObj.obj_eq_of_beq : ∀ {xs ys : JObj}, JObj.beq xs ys = true → xs = ys
  | .nil, .nil, _ => rfl
  | .cons k v xs, .cons k2 v2 ys, h => by
    simp only [JObj.beq, Bool.and_eq_true] at h
    rw [JVal.eq_of_beq h.1.2, JObj.obj_eq_of_beq h.2, beq_iff_eq.mp h.1.1]

end

instance : DecidableEq JVal := fun a b =>
  decidable_of_iff (JVal.beq a b = true)
    ⟨fun h => JVal.eq_of_beq h, fun h => h ▸ JVal.beq_refl a⟩

/-- The Python exceptions the script can raise while building the inventory. -/
inductive PyErr where
  | keyError : String → PyErr
  | attrError : String → PyErr
  | typeError : PyErr
  | indexError : PyErr
deriving DecidableEq

/-- Equality of `Except` results is decidable when it is on both sides. -/
instance {ε α : Type} [DecidableEq ε] [DecidableEq α] : DecidableEq (Except ε α) := fun a b =>
  match a, b with
  | .ok x, .ok y =>
    if h : x = y then .isTrue (by rw [h]) else .isFalse (fun e => h (by injection e))
  | .error x, .error y =>
    if h : x = y then .isTrue (by rw [h]) else .isFalse (fun e => h (by injection e))
  | .ok _, .error _ => .isFalse nofun
  | .error _, .ok _ => .isFalse nofun

/-- First value stored under a string key in a JSON object. -/
def jfind (k : String) : JObj → Option JVal
  | .nil => none
  | .cons k2 v rest => if k2 == k then some v else jfind k rest

/-- Python `d[k]` on a parsed JSON value: `KeyError` when the key is missing,
`TypeError` when the value is not a dict. -/
def jget (k : String) : JVal → Except PyErr JVal
  | .obj kvs =>
    match jfind k kvs with
    | some v => .ok v
    | none => .error (.keyError k)
  | _ => .error .typeError

/-- Key membership in a JSON object. -/
def JObj.hasKey (k : String) : JObj → Bool
  | .nil => false
  | .cons k2 _ rest => k2 == k || JObj.hasKey k rest

/-- Membership of a (string) value in a JSON array, by Python `==`. -/
def JArr.containsStr (k : String) : JArr → Bool
  | .nil => false
  | .cons x rest => JVal.beq x (.str k) || JArr.containsStr k rest

/-- Python `k in d` for a string key: key membership for a dict, element
membership for a list, `False` otherwise. -/
def jmem (k : String) : JVal → Bool
  | .obj kvs => kvs.hasKey k
  | .arr xs => xs.containsStr k
  | _ => false

/-- Number of elements of a JSON array. -/
def JArr.length : JArr → Nat
  | .nil => 0
  | .cons _ xs => JArr.length xs + 1

/-- Number of entries of a JSON object. -/
def JObj.length : JObj → Nat
  | .nil => 0
  | .cons _ _ xs => JObj.length xs + 1

/-- Python `len(x)`: defined for sequences and dicts, `TypeError` otherwise. -/
def jlen : JVal → Except PyErr Nat
  | .str s => .ok s.length
  | .arr xs => .ok xs.length
  | .obj kvs => .ok kvs.length
  | _ => .error .typeError

/-- Element of a JSON array at a natural index. -/
def JArr.get? : Nat → JArr → Option JVal
  | _, .nil => none
  | 0, .cons x _ => some x
  | n + 1, .cons _ xs => JArr.get? n xs

/-- Python `x[i]` for a natural index: array element or one-character
string, `IndexError` out of range, `TypeError` on other values. -/
def jindex (i : Nat) : JVal → Except PyErr JVal
  | .arr xs =>
    match xs.get? i with
    | some x => .ok x
    | none => .error .indexError
  | .str s =>
    match s.data.get? i with
    | some c => .ok (.str (String.singleton c))
    | none => .error .indexError
  | _ => .error .typeError

/-- Python truthiness of a JSON value. -/
def JVal.truthy : JVal → Bool
  | .null => false
  | .bool b => b
  | .num n => n != 0
  | .str s => s != ""
  | .arr .nil => false
  | .arr (.cons _ _) => true
  | .obj .nil => false
  | .obj (.cons _ _ _) => true

/-- Lookup in a Python dict keyed by JSON values (association list in
insertion order). -/
def dget {α : Type} (k : JVal) : List (JVal × α) → Option α
  | [] => none
  | kv :: rest => if kv.1 = k then some kv.2 else dget k rest

/-- Python `d[k] = v`: overwrite in place when the key exists (keeping its
position), append otherwise. -/
def dinsert {α : Type} (k : JVal) (v : α) : List (JVal × α) → List (JVal × α)
  | [] => [(k, v)]
  | kv :: rest => if kv.1 = k then (k, v) :: rest else kv :: dinsert k v rest

/-- Class `AzureIP`: id, name and the `ip_address` attribute. -/
structure AzureIP where
  id : JVal
  name : JVal
  ip : JVal
deriving DecidableEq

/-- Class `AzureNIC`: id, name, required `private_ip_address`; `public_ip` is
initialised to `None` and later filled by `lookup`; `public_ip_id` is a
Python attribute that is assigned only when `ip_configuration` is truthy
(`none` here means the attribute was never set, so reading it raises). -/
structure AzureNIC where
  id : JVal
  name : JVal
  private_ip : JVal
  public_ip : Option AzureIP
  public_ip_id : Option JVal
deriving DecidableEq

/-- Class `AzureVM`: id, name; `nic_id` is assigned only when
`network_interface_ids` is non-empty (attribute possibly unset); `user` is
initialised to `None` (`JVal.null`); `nic` is assigned only by `lookup`. -/
structure AzureVM where
  id : JVal
  name : JVal
  nic_id : Option JVal
  user : JVal
  nic : Option AzureNIC
deriving DecidableEq

/-- Constructor `AzureIP.__init__`: `attributes` dict, then `id`, `name`, `ip_address`. -/
def AzureIP.fromInstance (resource : JVal) : Except PyErr AzureIP :=
  match jget "attributes" resource with
  | .error e => .error e
  | .ok attr =>
  match jget "id" attr with
  | .error e => .error e
  | .ok i =>
  match jget "name" attr with
  | .error e => .error e
  | .ok n =>
  match jget "ip_address" attr with
  | .error e => .error e
  | .ok ip => .ok { id := i, name := n, ip := ip }

/-- The `ip_configuration` part of `AzureNIC.__init__`:
`if attr['ip_configuration']: self.public_ip_id =
attr['ip_configuration'][0]['public_ip_address_id']`. -/
def AzureNIC.read_public_ip_id (attr : JVal) : Except PyErr (Option JVal) :=
  match jget "ip_configuration" attr with
  | .error e => .error e
  | .ok ipc =>
    if ipc.truthy then
      match jindex 0 ipc with
      | .error e => .error e
      | .ok first =>
        match jget "public_ip_address_id" first with
        | .error e => .error e
        | .ok pid => .ok (some pid)
    else .ok none

/-- Constructor `AzureNIC.__init__`: base fields, required `private_ip_address`,
`public_ip = None`, optional `public_ip_id`. -/
def AzureNIC.fromInstance (resource : JVal) : Except PyErr AzureNIC :=
  match jget "attributes" resource with
  | .error e => .error e
  | .ok attr =>
  match jget "id" attr with
  | .error e => .error e
  | .ok i =>
  match jget "name" attr with
  | .error e => .error e
  | .ok n =>
  match jget "private_ip_address" attr with
  | .error e => .error e
  | .ok p =>
  match AzureNIC.read_public_ip_id attr with
  | .error e => .error e
  | .ok pid =>
    .ok { id := i, name := n, private_ip := p, public_ip := none, public_ip_id := pid }

/-- The `network_interface_ids` part of `AzureVM.__init__`:
`if len(attr['network_interface_ids']) > 0: self.nic_id =
attr['network_interface_ids'][0]`. -/
def AzureVM.read_nic_id (attr : JVal) : Except PyErr (Option JVal) :=
  match jget "network_interface_ids" attr with
  | .error e => .error e
  | .ok nids =>
    match jlen nids with
    | .error e => .error e
    | .ok n =>
      if n > 0 then
        match jindex 0 nids with
        | .error e => .error e
        | .ok x => .ok (some x)
      else .ok none

/-- The `os_profile` part of `AzureVM.__init__`: `self.user = None`, then
`if attr['os_profile'] and attr['os_profile'][0]['admin_username']:
self.user = attr['os_profile'][0]['admin_username']`. -/
def AzureVM.read_user (attr : JVal) : Except PyErr JVal :=
  match jget "os_profile" attr with
  | .error e => .error e
  | .ok osp =>
    if osp.truthy then
      match jindex 0 osp with
      | .error e => .error e
      | .ok first =>
        match jget "admin_username" first with
        | .error e => .error e
        | .ok au => .ok (if au.truthy then au else JVal.null)
    else .ok JVal.null

/-- Constructor `AzureVM.__init__`: base fields, optional `nic_id`, optional `user`. -/
def AzureVM.fromInstance (resource : JVal) : Except PyErr AzureVM :=
  match jget "attributes" resource with
  | .error e => .error e
  | .ok attr =>
  match jget "id" attr with
  | .error e => .error e
  | .ok i =>
  match jget "name" attr with
  | .error e => .error e
  | .ok n =>
  match AzureVM.read_nic_id attr with
  | .error e => .error e
  | .ok nic_id =>
  match AzureVM.read_user attr with
  | .error e => .error e
  | .ok u => .ok { id := i, name := n, nic_id := nic_id, user := u, nic := none }

/-- The extracted resource groups: the Python dict `resources`, holding at
most the three aliases `hosts`, `nics`, `public_ip`, each mapping resource
id to record. `none` means the alias key is absent from the dict. -/
structure Groups where
  hosts : Option (List (JVal × AzureVM))
  nics : Option (List (JVal × AzureNIC))
  public_ip : Option (List (JVal × AzureIP))
deriving DecidableEq

/-- Method `AzureNIC.lookup`: `ips = resources['public_ip']` (KeyError when the
group is absent), then `if self.public_ip_id in ips` (AttributeError when
the attribute was never set), attaching the found `AzureIP`. -/
def AzureNIC.lookup (nic : AzureNIC) (resources : Groups) : Except PyErr AzureNIC :=
  match resources.public_ip with
  | none => .error (.keyError "public_ip")
  | some ips =>
    match nic.public_ip_id with
    | none => .error (.attrError "public_ip_id")
    | some pid =>
      match dget pid ips with
      | some ip => .ok { nic with public_ip := some ip }
      | none => .ok nic

/-- Method `AzureVM.lookup`: `nics = resources['nics']` (KeyError when absent),
`if self.nic_id in nics` (AttributeError when never set); on a hit the VM
attaches `nics[self.nic_id]` and resolves it. In Python the attached NIC is
the very object stored in the group, so resolving it also updates the
group's entry; the embedding returns the updated groups to model that
shared mutation. -/
def AzureVM.lookup (vm : AzureVM) (resources : Groups) : Except PyErr (AzureVM × Groups) :=
  match resources.nics with
  | none => .error (.keyError "nics")
  | some nics =>
    match vm.nic_id with
    | none => .error (.attrError "nic_id")
    | some nid =>
      match dget nid nics with
      | none => .ok (vm, resources)
      | some nic =>
        match nic.lookup resources with
        | .error e => .error e
        | .ok nic2 =>
          .ok ({ vm with nic := some nic2 },
               { resources with nics := some (dinsert nid nic2 nics) })

/-- Fields of one hostvars entry: `ansible_host` is always set once a host entry is emitted;
`ansible_user` only when the VM's user is truthy. -/
structure HostVars where
  ansible_host : JVal
  ansible_user : Option JVal
deriving DecidableEq

/-- The inventory under construction: `_meta.hostvars` (a dict keyed by
host name) and `all.hosts` (a list of names, in emission order). -/
structure InventoryDoc where
  hostvars : List (JVal × HostVars)
  hosts : List JVal
deriving DecidableEq

/-- Method `Inventory.add_host_to_inventory`: resolve the host, then read
`host.nic` (AttributeError when the NIC reference dangled and `lookup`
never assigned it), select the address
(`if host.nic.public_ip and not self.use_private_ip`), and record the
entry. In Python the `hostvars` dict is inserted before its keys are
set, but any exception raised in between aborts the whole run, so
returning the completed entry is observationally the same. -/
def Inventory.add_host_to_inventory (use_private_ip : Bool) (inventory : InventoryDoc)
    (resources : Groups) (host : AzureVM) : Except PyErr (InventoryDoc × Groups) :=
  match host.lookup resources with
  | .error e => .error e
  | .ok (host2, resources2) =>
    match host2.nic with
    | none => .error (.attrError "nic")
    | some nic =>
      let addr : JVal :=
        match nic.public_ip with
        | some ip => if use_private_ip then nic.private_ip else ip.ip
        | none => nic.private_ip
      let hostvars : HostVars :=
        { ansible_host := addr,
          ansible_user := if host2.user.truthy then some host2.user else none }
      .ok ({ hostvars := dinsert host2.name hostvars inventory.hostvars,
             hosts := inventory.hosts ++ [host2.name] },
           resources2)

/-- The `for host_id in self.resources['hosts']` loop of
`Inventory.inventory`, threading the (mutated-in-place) groups. -/
def Inventory.run_hosts (use_private_ip : Bool) :
    List (JVal × AzureVM) → InventoryDoc → Groups → Except PyErr (InventoryDoc × Groups)
  | [], inventory, resources => .ok (inventory, resources)
  | kv :: rest, inventory, resources =>
    match Inventory.add_host_to_inventory use_private_ip inventory resources kv.2 with
    | .error e => .error e
    | .ok (inv2, res2) => Inventory.run_hosts use_private_ip rest inv2 res2

/-- Method `Inventory.inventory`: start from the empty inventory; when a `hosts`
group exists, add every VM in group (insertion) order. -/
def Inventory.inventory (resources : Groups) (use_private_ip : Bool) :
    Except PyErr InventoryDoc :=
  match resources.hosts with
  | none => .ok { hostvars := [], hosts := [] }
  | some hosts =>
    match Inventory.run_hosts use_private_ip hosts { hostvars := [], hosts := [] } resources with
    | .error e => .error e
    | .ok (inv2, _) => .ok inv2

/-- The `for instance in res['instances']` loop of
`Inventory.add_resources_to_group`: construct each record and store it
under its own id (`group[resource.id] = resource`). -/
def Inventory.add_instances {α : Type} (restype : JVal → Except PyErr α)
    (idOf : α → JVal) : List (JVal × α) → JArr → Except PyErr (List (JVal × α))
  | group, .nil => .ok group
  | group, .cons inst rest =>
    match restype inst with
    | .error e => .error e
    | .ok r => Inventory.add_instances restype idOf (dinsert (idOf r) r group) rest

/-- Method `Inventory.add_resources_to_group`: `if 'instances' in res`, iterate the
instances; a resource entry without an `instances` field contributes
nothing. -/
def Inventory.add_resources_to_group {α : Type} (restype : JVal → Except PyErr α)
    (idOf : α → JVal) (group : List (JVal × α)) (res : JVal) :
    Except PyErr (List (JVal × α)) :=
  if jmem "instances" res then
    match jget "instances" res with
    | .error e => .error e
    | .ok (.arr instances) => Inventory.add_instances restype idOf group instances
    | .ok _ => .error .typeError
  else .ok group

/-- The `for res in state['resources']` loop of
`Inventory.extract_resources`, with `Inventory.update_resource_group`
(get-or-create the group, then add the instances) specialised to the three
entries of the `resource_types` dispatch table; `res['type']` raises on a
missing key, unrecognised types are skipped. -/
def Inventory.extract_loop : JArr → Groups → Except PyErr Groups
  | .nil, resources => .ok resources
  | .cons res rest, resources =>
    match jget "type" res with
    | .error e => .error e
    | .ok t =>
      if t = .str "azurerm_virtual_machine" then
        match Inventory.add_resources_to_group AzureVM.fromInstance AzureVM.id
            (resources.hosts.getD []) res with
        | .error e => .error e
        | .ok g => Inventory.extract_loop rest { resources with hosts := some g }
      else if t = .str "azurerm_public_ip" then
        match Inventory.add_resources_to_group AzureIP.fromInstance AzureIP.id
            (resources.public_ip.getD []) res with
        | .error e => .error e
        | .ok g => Inventory.extract_loop rest { resources with public_ip := some g }
      else if t = .str "azurerm_network_interface" then
        match Inventory.add_resources_to_group AzureNIC.fromInstance AzureNIC.id
            (resources.nics.getD []) res with
        | .error e => .error e
        | .ok g => Inventory.extract_loop rest { resources with nics := some g }
      else Inventory.extract_loop rest resources

/-- Method `Inventory.extract_resources`: start from an empty dict;
`if 'resources' in state: for res in state['resources']: ...`. -/
def Inventory.extract_resources (state : JVal) : Except PyErr Groups :=
  if jmem "resources" state then
    match jget "resources" state with
    | .error e => .error e
    | .ok (.arr l) =>
      Inventory.extract_loop l { hosts := none, nics := none, public_ip := none }
    | .ok _ => .error .typeError
  else .ok { hosts := none, nics := none, public_ip := none }

/-- The whole pipeline as run by `Inventory.__init__` followed by
`Inventory.inventory`: extract the groups, then build the inventory. -/
def Inventory.build (state : JVal) (use_private_ip : Bool) : Except PyErr InventoryDoc :=
  match Inventory.extract_resources state with
  | .error e => .error e
  | .ok resources => Inventory.inventory resources use_private_ip

/-! Dictionary lemmas. -/

theorem dget_dinsert_self {α : Type} (k : JVal) (v : α) (d : List (JVal × α)) :
    dget k (dinsert k v d) = some v := by
  induction d with
  | nil => simp [dinsert, dget]
  | cons kv rest ih =>
    by_cases h : kv.1 = k
    · simp [dinsert, h, dget]
    · simp [dinsert, h, dget, ih]

theorem dget_dinsert_ne {α : Type} (k k2 : JVal) (v : α) (d : List (JVal × α))
    (h : k2 ≠ k) : dget k2 (dinsert k v d) = dget k2 d := by
  induction d with
  | nil => simp [dinsert, dget, Ne.symm h]
  | cons kv rest ih =>
    by_cases hh : kv.1 = k
    · simp [dinsert, hh, dget, Ne.symm h]
    · simp [dinsert, hh, dget, ih]

theorem dinsert_dinsert {α : Type} (k : JVal) (v : α) (d : List (JVal × α)) :
    dinsert k v (dinsert k v d) = dinsert k v d := by
  induction d with
  | nil => simp [dinsert]
  | cons kv rest ih =>
    by_cases h : kv.1 = k
    · simp [dinsert, h]
    · simp [dinsert, h, ih]

theorem dget_dinsert_isSome {α : Type} (k k2 : JVal) (v : α) (d : List (JVal × α))
    (h : (dget k2 d).isSome) : (dget k2 (dinsert k v d)).isSome := by
  by_cases e : k2 = k
  · subst e; rw [dget_dinsert_self]; rfl
  · rw [dget_dinsert_ne _ _ _ _ e]; exact h

/-! Characterisations of the two `lookup` methods. -/

/-- A successful NIC lookup changes at most the `public_ip` field. -/
theorem AzureNIC.nic_lookup_fields {nic nic2 : AzureNIC} {g : Groups}
    (h : nic.lookup g = .ok nic2) :
    nic2.id = nic.id ∧ nic2.name = nic.name ∧ nic2.private_ip = nic.private_ip ∧
    nic2.public_ip_id = nic.public_ip_id := by
  unfold AzureNIC.lookup at h
  split at h
  · simp at h
  · split at h
    · simp at h
    · split at h
      · cases h; exact ⟨rfl, rfl, rfl, rfl⟩
      · cases h; exact ⟨rfl, rfl, rfl, rfl⟩

/-- A successful VM lookup changes at most the `nic` field of the VM. -/
theorem AzureVM.vm_lookup_fields {vm vm2 : AzureVM} {g g2 : Groups}
    (h : vm.lookup g = .ok (vm2, g2)) :
    vm2.id = vm.id ∧ vm2.name = vm.name ∧ vm2.nic_id = vm.nic_id ∧ vm2.user = vm.user := by
  unfold AzureVM.lookup at h
  split at h
  · simp at h
  · split at h
    · simp at h
    · split at h
      · cases h; exact ⟨rfl, rfl, rfl, rfl⟩
      · split at h
        · simp at h
        · cases h; exact ⟨rfl, rfl, rfl, rfl⟩

/-- A successfully resolved NIC resolves to itself again, as long as the
`public_ip` group is unchanged. -/
theorem AzureNIC.lookup_idem {nic nic2 : AzureNIC} {g g2 : Groups}
    (h : nic.lookup g = .ok nic2) (hp : g2.public_ip = g.public_ip) :
    nic2.lookup g2 = .ok nic2 := by
  cases hg : g.public_ip with
  | none => simp only [AzureNIC.lookup, hg] at h; cases h
  | some ips =>
    cases hpid : nic.public_ip_id with
    | none => simp only [AzureNIC.lookup, hg, hpid] at h; cases h
    | some pid =>
      simp only [AzureNIC.lookup, hg, hpid] at h
      cases hd : dget pid ips with
      | some ip =>
        simp only [hd] at h
        cases h
        simp only [AzureNIC.lookup, hp, hg, hpid, hd]
      | none =>
        simp only [hd] at h
        cases h
        simp only [AzureNIC.lookup, hp, hg, hpid, hd]

/-- Shape of a successful `add_host_to_inventory` call, given that the
resolved host carries a NIC. -/
theorem add_host_ok_shape {use_private_ip : Bool} {inv : InventoryDoc} {g g2 : Groups}
    {host host2 : AzureVM} {nic : AzureNIC}
    (h1 : host.lookup g = .ok (host2, g2)) (h2 : host2.nic = some nic) :
    Inventory.add_host_to_inventory use_private_ip inv g host =
      .ok ({ hostvars := dinsert host2.name
               { ansible_host :=
                   match nic.public_ip with
                   | some ip => if use_private_ip then nic.private_ip else ip.ip
                   | none => nic.private_ip,
                 ansible_user := if host2.user.truthy then some host2.user else none }
               inv.hostvars,
             hosts := inv.hosts ++ [host2.name] }, g2) := by
  simp only [Inventory.add_host_to_inventory, h1, h2]

/-- Any successful `add_host_to_inventory` call appends exactly one name to
`all.hosts` and stores a hostvars entry under that same name. -/
theorem add_host_inv_shape {use_private_ip : Bool} {inv inv2 : InventoryDoc}
    {g g2 : Groups} {host : AzureVM}
    (h : Inventory.add_host_to_inventory use_private_ip inv g host = .ok (inv2, g2)) :
    ∃ nm hv, inv2.hostvars = dinsert nm hv inv.hostvars ∧ inv2.hosts = inv.hosts ++ [nm] := by
  unfold Inventory.add_host_to_inventory at h
  split at h
  · cases h
  · split at h
    · cases h
    · cases h
      exact ⟨_, _, rfl, rfl⟩

/-- The host loop preserves "every emitted name has a hostvars entry". -/
theorem run_hosts_names (use_private_ip : Bool) (hs : List (JVal × AzureVM)) :
    ∀ (inv0 : InventoryDoc) (g0 : Groups) (inv1 : InventoryDoc) (g1 : Groups),
      Inventory.run_hosts use_private_ip hs inv0 g0 = .ok (inv1, g1) →
      (∀ n, n ∈ inv0.hosts → (dget n inv0.hostvars).isSome) →
      (∀ n, n ∈ inv1.hosts → (dget n inv1.hostvars).isSome) := by
  induction hs with
  | nil =>
    intro inv0 g0 inv1 g1 h hp
    cases h
    exact hp
  | cons kv rest ih =>
    intro inv0 g0 inv1 g1 h hp
    unfold Inventory.run_hosts at h
    split at h
    · cases h
    · rename_i inv2 g2 ha
      refine ih inv2 g2 inv1 g1 h ?_
      obtain ⟨nm, hv, hvars, hhosts⟩ := add_host_inv_shape ha
      intro n hn
      rw [hhosts, List.mem_append] at hn
      rw [hvars]
      rcases hn with hn | hn
      · exact dget_dinsert_isSome _ _ _ _ (hp n hn)
      · rw [List.mem_singleton] at hn
        subst hn
        rw [dget_dinsert_self]
        rfl

/-- A resource entry whose `type` is none of the three recognised kinds is
skipped by the extraction loop. -/
theorem extract_loop_skip :
    ∀ (l : JArr) (g : Groups),
      (∀ res ∈ l.toList, ∃ t, jget "type" res = .ok t ∧
        t ≠ .str "azurerm_virtual_machine" ∧ t ≠ .str "azurerm_public_ip" ∧
        t ≠ .str "azurerm_network_interface") →
      Inventory.extract_loop l g = .ok g
  | .nil, g, _ => rfl
  | .cons res rest, g, hp => by
    obtain ⟨t, ht, h1, h2, h3⟩ := hp res (by simp [JArr.toList])
    simp only [Inventory.extract_loop, ht, if_neg h1, if_neg h2, if_neg h3]
    exact extract_loop_skip rest g (fun res2 hm => hp res2 (by simp [JArr.toList, hm]))

/-! Concrete records and state documents used to instantiate the theorems. -/

/-- A public IP record as extracted from the example state. -/
def w1Ip : AzureIP := { id := .str "p1", name := .str "ip1", ip := .str "20.1.1.1" }

/-- A NIC record carrying a public-IP reference, before resolution. -/
def w1Nic : AzureNIC :=
  { id := .str "n1", name := .str "nic1", private_ip := .str "10.0.0.5",
    public_ip := none, public_ip_id := some (.str "p1") }

/-- The record `w1Nic` after resolution attached `w1Ip`. -/
def w1NicR : AzureNIC := { w1Nic with public_ip := some w1Ip }

/-- A VM record referencing `w1Nic`, before resolution. -/
def w1Host : AzureVM :=
  { id := .str "v1", name := .str "web1", nic_id := some (.str "n1"),
    user := .null, nic := none }

/-- Groups holding `w1Nic` and `w1Ip` (no `hosts` group needed here). -/
def w1G : Groups :=
  { hosts := none, nics := some [(.str "n1", w1Nic)], public_ip := some [(.str "p1", w1Ip)] }

/-- The record `w1Host` after resolution. -/
def w1HostR : AzureVM := { w1Host with nic := some w1NicR }

/-- The groups `w1G` after resolving `w1Host` updated the shared NIC entry. -/
def w1GR : Groups := { w1G with nics := some [(.str "n1", w1NicR)] }

/-- A VM like `w1Host` but with an admin user. -/
def w6Host : AzureVM := { w1Host with user := .str "admin" }

/-- The record `w6Host` after resolution. -/
def w6HostR : AzureVM := { w6Host with nic := some w1NicR }

/-- A VM whose `nic_id` attribute was never assigned. -/
def c2Vm : AzureVM :=
  { id := .str "v1", name := .str "web1", nic_id := none, user := .null, nic := none }

/-- A NIC whose `public_ip_id` attribute was never assigned. -/
def c2Nic : AzureNIC :=
  { id := .str "n1", name := .str "nic1", private_ip := .str "10.0.0.5",
    public_ip := none, public_ip_id := none }

/-- Groups in which both lookup tables exist (but are empty). -/
def c2G : Groups := { hosts := none, nics := some [], public_ip := some [] }

/-- VM attributes with the mandatory fields only. -/
def c3VmAttr : JVal := .obj (JVal.ofPairs [("id", .str "v1"), ("name", .str "web1")])

/-- A VM instance whose attribute mapping has no `network_interface_ids`. -/
def c3VmInst : JVal := .obj (JVal.ofPairs [("attributes", c3VmAttr)])

/-- NIC attributes with the mandatory fields only. -/
def c3NicAttr : JVal := .obj (JVal.ofPairs [("id", .str "n1"), ("name", .str "nic1"),
  ("private_ip_address", .str "10.0.0.5")])

/-- A NIC instance whose attribute mapping has no `ip_configuration`. -/
def c3NicInst : JVal := .obj (JVal.ofPairs [("attributes", c3NicAttr)])

/-- VM attributes with empty `network_interface_ids` and null `os_profile`. -/
def w3VmAttr : JVal := .obj (JVal.ofPairs [("id", .str "v1"), ("name", .str "web1"),
  ("network_interface_ids", .arr .nil), ("os_profile", .null)])

/-- A VM instance with present-but-empty optional structures. -/
def w3VmInst : JVal := .obj (JVal.ofPairs [("attributes", w3VmAttr)])

/-- NIC attributes with an empty `ip_configuration` list. -/
def w3NicAttr : JVal := .obj (JVal.ofPairs [("id", .str "n1"), ("name", .str "nic1"),
  ("private_ip_address", .str "10.0.0.5"), ("ip_configuration", .arr .nil)])

/-- A NIC instance with a present-but-empty `ip_configuration`. -/
def w3NicInst : JVal := .obj (JVal.ofPairs [("attributes", w3NicAttr)])

/-! The claims. -/

/-- C1: For every VM whose resolved NIC has a resolved public IP, if
`usePrivateAddress` is false then the built host entry's `ansible_host`
equals the public IP's address string; in every other case
(`usePrivateAddress` true, or the NIC's `publicAddress` unresolved)
`ansible_host` equals the NIC's `privateAddress` string. -/
theorem C1_address_selection (use_private_ip : Bool) (inv : InventoryDoc)
    (g g2 : Groups) (host host2 : AzureVM) (nic : AzureNIC)
    (h1 : host.lookup g = .ok (host2, g2)) (h2 : host2.nic = some nic) :
    ∃ hv : HostVars,
      Inventory.add_host_to_inventory use_private_ip inv g host =
        .ok ({ hostvars := dinsert host2.name hv inv.hostvars,
               hosts := inv.hosts ++ [host2.name] }, g2) ∧
      (∀ ip, nic.public_ip = some ip → use_private_ip = false → hv.ansible_host = ip.ip) ∧
      ((use_private_ip = true ∨ nic.public_ip = none) → hv.ansible_host = nic.private_ip) := by
  refine ⟨_, add_host_ok_shape h1 h2, ?_, ?_⟩
  · intro ip hip hupi
    subst hupi
    simp [hip]
  · rintro (hupi | hip)
    · subst hupi
      cases hpub : nic.public_ip <;> simp [hpub]
    · simp [hip]

/-- C1 witness: the resolvable example host with the public address chosen. -/
theorem C1_address_selection_witness :
    w1Host.lookup w1G = .ok (w1HostR, w1GR) ∧ w1HostR.nic = some w1NicR ∧
    (∃ hv : HostVars,
      Inventory.add_host_to_inventory false { hostvars := [], hosts := [] } w1G w1Host =
        .ok ({ hostvars := dinsert w1HostR.name hv [],
               hosts := [] ++ [w1HostR.name] }, w1GR) ∧
      (∀ ip, w1NicR.public_ip = some ip → false = false → hv.ansible_host = ip.ip) ∧
      ((false = true ∨ w1NicR.public_ip = none) → hv.ansible_host = w1NicR.private_ip)) :=
  ⟨by decide, by decide,
   C1_address_selection false { hostvars := [], hosts := [] } w1G w1GR w1Host w1HostR w1NicR
     (by decide) (by decide)⟩

/-- C2 counterexample: a VM whose `networkInterfaceId` is absent makes
`lookup` raise `AttributeError` (and likewise a NIC with an absent
`publicAddressId`), instead of leaving the reference absent without
failing as the claim states. -/
theorem C2_resolution_counterexample :
    c2Vm.nic_id = none ∧ c2G.nics = some [] ∧
    AzureVM.lookup c2Vm c2G = .error (.attrError "nic_id") ∧
    c2Nic.public_ip_id = none ∧ c2G.public_ip = some [] ∧
    AzureNIC.lookup c2Nic c2G = .error (.attrError "public_ip_id") :=
  ⟨rfl, rfl, rfl, rfl, rfl, rfl⟩

/-- C2 (amended): for every VM whose `networkInterfaceId` is present and
every groups mapping with a `nics` group, resolve leaves the reference
absent (without failing) when the id is not a key of the group; when found
it attaches the NIC, and then — when the NIC's `publicAddressId` is present
and a `public_ip` group exists — leaves the NIC's `publicAddress` absent
(without failing) when that id is not a key of `public_ip`, otherwise
attaches the matching PublicIP record. (When either reference-id attribute
is absent, resolve raises instead.) -/
theorem C2_resolution_amended (vm : AzureVM) (g : Groups) (nid : JVal)
    (nics : List (JVal × AzureNIC))
    (h1 : vm.nic_id = some nid) (h2 : g.nics = some nics) :
    (dget nid nics = none → vm.lookup g = .ok (vm, g)) ∧
    (∀ nic pid ips, dget nid nics = some nic → nic.public_ip_id = some pid →
      g.public_ip = some ips →
      (dget pid ips = none →
        vm.lookup g = .ok ({ vm with nic := some nic },
                           { g with nics := some (dinsert nid nic nics) })) ∧
      (∀ ip, dget pid ips = some ip →
        vm.lookup g = .ok ({ vm with nic := some { nic with public_ip := some ip } },
                           { g with nics := some (dinsert nid { nic with public_ip := some ip }
                               nics) }))) := by
  constructor
  · intro hd
    simp only [AzureVM.lookup, h1, h2, hd]
  · intro nic pid ips hd hpid hips
    constructor
    · intro hip
      simp only [AzureVM.lookup, h1, h2, hd, AzureNIC.lookup, hpid, hips, hip]
    · intro ip hip
      simp only [AzureVM.lookup, h1, h2, hd, AzureNIC.lookup, hpid, hips, hip]

/-- C2 witness: the example host resolves against its groups, attaching the
public IP; applying the amended theorem at those concrete values. -/
theorem C2_resolution_amended_witness :
    w1Host.nic_id = some (.str "n1") ∧ w1G.nics = some [(.str "n1", w1Nic)] ∧
    ((dget (.str "n1") [(.str "n1", w1Nic)] = none → w1Host.lookup w1G = .ok (w1Host, w1G)) ∧
    (∀ nic pid ips, dget (.str "n1") [(.str "n1", w1Nic)] = some nic →
      nic.public_ip_id = some pid → w1G.public_ip = some ips →
      (dget pid ips = none →
        w1Host.lookup w1G = .ok ({ w1Host with nic := some nic },
          { w1G with nics := some (dinsert (.str "n1") nic [(.str "n1", w1Nic)]) })) ∧
      (∀ ip, dget pid ips = some ip →
        w1Host.lookup w1G = .ok ({ w1Host with nic := some { nic with public_ip := some ip } },
          { w1G with nics := some (dinsert (.str "n1") { nic with public_ip := some ip }
              [(.str "n1", w1Nic)]) })))) :=
  ⟨rfl, rfl, C2_resolution_amended w1Host w1G (.str "n1") [(.str "n1", w1Nic)] rfl rfl⟩

/-- C3 counterexample: attribute mappings carrying the mandatory `id` and
`name` (and `private_ip_address` for the NIC) whose optional structures
are entirely missing make construction fail with a `KeyError`, rather than
succeeding with the optional field absent. -/
theorem C3_construction_counterexample :
    jget "id" c3VmAttr = .ok (.str "v1") ∧ jget "name" c3VmAttr = .ok (.str "web1") ∧
    AzureVM.fromInstance c3VmInst = .error (.keyError "network_interface_ids") ∧
    jget "id" c3NicAttr = .ok (.str "n1") ∧ jget "name" c3NicAttr = .ok (.str "nic1") ∧
    jget "private_ip_address" c3NicAttr = .ok (.str "10.0.0.5") ∧
    AzureNIC.fromInstance c3NicInst = .error (.keyError "ip_configuration") :=
  ⟨rfl, rfl, rfl, rfl, rfl, rfl, rfl⟩

/-- C3 (amended): for every raw attribute mapping containing the mandatory
`id` and `name` (and, for a NIC, `private_ip_address`) in which the
optional structures are present but empty (an empty
`network_interface_ids` list, a falsy `os_profile`, a falsy
`ip_configuration`), construction succeeds and the corresponding optional
field resolves to an explicit absent value. (A mapping from which an
optional structure key is entirely missing makes construction fail with a
`KeyError` instead.) -/
theorem C3_construction_amended :
    (∀ (res attr i n osp : JVal),
      jget "attributes" res = .ok attr → jget "id" attr = .ok i →
      jget "name" attr = .ok n →
      jget "network_interface_ids" attr = .ok (.arr .nil) →
      jget "os_profile" attr = .ok osp → osp.truthy = false →
      AzureVM.fromInstance res =
        .ok { id := i, name := n, nic_id := none, user := .null, nic := none }) ∧
    (∀ (res attr i n p ipc : JVal),
      jget "attributes" res = .ok attr → jget "id" attr = .ok i →
      jget "name" attr = .ok n → jget "private_ip_address" attr = .ok p →
      jget "ip_configuration" attr = .ok ipc → ipc.truthy = false →
      AzureNIC.fromInstance res =
        .ok { id := i, name := n, private_ip := p, public_ip := none,
              public_ip_id := none }) := by
  constructor
  · intro res attr i n osp hattr hid hname hnids hosp htr
    simp only [AzureVM.fromInstance, hattr, hid, hname,
      AzureVM.read_nic_id, hnids, jlen, JArr.length,
      AzureVM.read_user, hosp, htr]
    simp
  · intro res attr i n p ipc hattr hid hname hp hipc htr
    simp only [AzureNIC.fromInstance, hattr, hid, hname, hp,
      AzureNIC.read_public_ip_id, hipc, htr]
    simp

/-- C3 witness: concrete instances with empty optional structures construct
successfully, the optional fields absent. -/
theorem C3_construction_amended_witness :
    (jget "attributes" w3VmInst = .ok w3VmAttr ∧
     jget "id" w3VmAttr = .ok (.str "v1") ∧
     jget "name" w3VmAttr = .ok (.str "web1") ∧
     jget "network_interface_ids" w3VmAttr = .ok (.arr .nil) ∧
     jget "os_profile" w3VmAttr = .ok .null ∧ JVal.truthy .null = false ∧
     AzureVM.fromInstance w3VmInst =
       .ok { id := .str "v1", name := .str "web1", nic_id := none,
             user := .null, nic := none }) ∧
    (jget "attributes" w3NicInst = .ok w3NicAttr ∧
     jget "id" w3NicAttr = .ok (.str "n1") ∧
     jget "name" w3NicAttr = .ok (.str "nic1") ∧
     jget "private_ip_address" w3NicAttr = .ok (.str "10.0.0.5") ∧
     jget "ip_configuration" w3NicAttr = .ok (.arr .nil) ∧
     JVal.truthy (.arr .nil) = false ∧
     AzureNIC.fromInstance w3NicInst =
       .ok { id := .str "n1", name := .str "nic1", private_ip := .str "10.0.0.5",
             public_ip := none, public_ip_id := none }) :=
  ⟨⟨rfl, rfl, rfl, rfl, rfl, rfl,
    C3_construction_amended.1 w3VmInst w3VmAttr (.str "v1") (.str "web1") .null
      rfl rfl rfl rfl rfl rfl⟩,
   ⟨rfl, rfl, rfl, rfl, rfl, rfl,
    C3_construction_amended.2 w3NicInst w3NicAttr (.str "n1") (.str "nic1")
      (.str "10.0.0.5") (.arr .nil) rfl rfl rfl rfl rfl rfl⟩⟩

/-- A VM instance `v1` named `web1` referencing `n1` (no OS profile). -/
def c4Vm1 : JVal := .obj (JVal.ofPairs [("attributes", .obj (JVal.ofPairs [("id", .str "v1"),
  ("name", .str "web1"), ("network_interface_ids", .arr (JVal.ofList [.str "n1"])),
  ("os_profile", .null)]))])

/-- A second VM instance `v2` with the same name `web1`. -/
def c4Vm2 : JVal := .obj (JVal.ofPairs [("attributes", .obj (JVal.ofPairs [("id", .str "v2"),
  ("name", .str "web1"), ("network_interface_ids", .arr (JVal.ofList [.str "n1"])),
  ("os_profile", .null)]))])

/-- The NIC instance `n1` with a public-IP reference to `p1`. -/
def c4NicInst : JVal := .obj (JVal.ofPairs [("attributes", .obj (JVal.ofPairs [("id", .str "n1"),
  ("name", .str "nic1"), ("private_ip_address", .str "10.0.0.5"),
  ("ip_configuration", .arr (JVal.ofList [.obj (JVal.ofPairs
    [("public_ip_address_id", .str "p1")])]))]))])

/-- The public-IP instance `p1`. -/
def c4IpInst : JVal := .obj (JVal.ofPairs [("attributes", .obj (JVal.ofPairs [("id", .str "p1"),
  ("name", .str "ip1"), ("ip_address", .str "20.1.1.1")]))])

/-- A state with two VMs of distinct ids but the same name `web1`. -/
def c4State : JVal := .obj (JVal.ofPairs [("resources", .arr (JVal.ofList [
  .obj (JVal.ofPairs [("type", .str "azurerm_virtual_machine"),
    ("instances", .arr (JVal.ofList [c4Vm1, c4Vm2]))]),
  .obj (JVal.ofPairs [("type", .str "azurerm_network_interface"),
    ("instances", .arr (JVal.ofList [c4NicInst]))]),
  .obj (JVal.ofPairs [("type", .str "azurerm_public_ip"),
    ("instances", .arr (JVal.ofList [c4IpInst]))])]))])

/-- The inventory document `build` produces from `c4State`. -/
def c4Doc : InventoryDoc :=
  { hostvars := [(.str "web1", { ansible_host := .str "20.1.1.1", ansible_user := none })],
    hosts := [.str "web1", .str "web1"] }

/-- C4 counterexample: when the source state holds two VMs with the same
name, the built inventory repeats that name in `all.hosts` — the names in
`all.hosts` are not unique, contradicting the claim (the hostvars entry is
indeed last-write-wins, a single entry). -/
theorem C4_uniqueness_counterexample :
    Inventory.build c4State false = .ok c4Doc ∧
    c4Doc.hosts = [.str "web1", .str "web1"] ∧
    ¬ List.Nodup [JVal.str "web1", JVal.str "web1"] :=
  ⟨by decide, rfl, by simp⟩

/-- C4 (amended): for every inventory document produced by `build`, every
name appearing in `all.hosts` has a corresponding entry in
`_meta.hostvars`, with last-write-wins applied to the hostvars entry when
the source state contains two VMs with the same name; but `all.hosts`
receives one occurrence of the name per VM, so its names are not unique in
that case. -/
theorem C4_names_have_hostvars (state : JVal) (use_private_ip : Bool)
    (inv : InventoryDoc)
    (h : Inventory.build state use_private_ip = .ok inv) :
    ∀ n ∈ inv.hosts, ∃ hv, dget n inv.hostvars = some hv := by
  unfold Inventory.build at h
  split at h
  · cases h
  · rename_i gs hex
    cases hhosts : gs.hosts with
    | none =>
      simp only [Inventory.inventory, hhosts] at h
      cases h
      intro n hn
      simp at hn
    | some hs =>
      simp only [Inventory.inventory, hhosts] at h
      cases hrun : Inventory.run_hosts use_private_ip hs { hostvars := [], hosts := [] } gs with
      | error e => rw [hrun] at h; cases h
      | ok p =>
        obtain ⟨inv2, g2⟩ := p
        rw [hrun] at h
        cases h
        intro n hn
        have hsome := run_hosts_names use_private_ip hs { hostvars := [], hosts := [] } gs
          _ _ hrun (by intro n2 hn2; simp at hn2) n hn
        obtain ⟨hv, hhv⟩ := Option.isSome_iff_exists.mp hsome
        exact ⟨hv, hhv⟩

/-- C4 witness: the invariant instantiated on the duplicate-name state. -/
theorem C4_names_have_hostvars_witness :
    Inventory.build c4State false = .ok c4Doc ∧
    ∀ n ∈ c4Doc.hosts, ∃ hv, dget n c4Doc.hostvars = some hv :=
  ⟨by decide, C4_names_have_hostvars c4State false c4Doc (by decide)⟩

/-- A state whose resource list holds one entry with no `type` field. -/
def c5State : JVal := .obj (JVal.ofPairs [("resources", .arr (JVal.ofList [.obj .nil]))])

/-- A state whose one resource entry has an unrecognised type. -/
def w5State : JVal := .obj (JVal.ofPairs [("resources", .arr (JVal.ofList
  [.obj (JVal.ofPairs [("type", .str "azurerm_subnet")])]))])

/-- C5 counterexample: a state whose resource list contains an entry of no
recognised kind — here an entry with no `type` field at all — makes
extraction (and build) fail with a `KeyError`, not return the empty
grouping as the claim states. -/
theorem C5_empty_counterexample :
    jmem "resources" c5State = true ∧
    Inventory.extract_resources c5State = .error (.keyError "type") ∧
    Inventory.build c5State false = .error (.keyError "type") :=
  ⟨rfl, rfl, rfl⟩

/-- C5 (amended): for every state document containing no top-level resource
list, or whose resource list's entries each carry a readable `type` that
matches no recognised kind, extraction returns an empty grouping (not an
error) and build produces exactly
`{"_meta":{"hostvars":{}},"all":{"hosts":[]}}`. (An entry from which no
`type` can be read makes extraction fail instead.) -/
theorem C5_empty_inventory :
    (∀ (state : JVal) (use_private_ip : Bool), jmem "resources" state = false →
      Inventory.extract_resources state = .ok { hosts := none, nics := none, public_ip := none } ∧
      Inventory.build state use_private_ip = .ok { hostvars := [], hosts := [] }) ∧
    (∀ (state : JVal) (l : JArr) (use_private_ip : Bool),
      jmem "resources" state = true → jget "resources" state = .ok (.arr l) →
      (∀ res ∈ l.toList, ∃ t, jget "type" res = .ok t ∧
        t ≠ .str "azurerm_virtual_machine" ∧ t ≠ .str "azurerm_public_ip" ∧
        t ≠ .str "azurerm_network_interface") →
      Inventory.extract_resources state = .ok { hosts := none, nics := none, public_ip := none } ∧
      Inventory.build state use_private_ip = .ok { hostvars := [], hosts := [] }) := by
  constructor
  · intro state use_private_ip hmem
    have hex : Inventory.extract_resources state =
        .ok { hosts := none, nics := none, public_ip := none } := by
      simp only [Inventory.extract_resources, hmem]
      simp
    refine ⟨hex, ?_⟩
    simp only [Inventory.build, hex, Inventory.inventory]
  · intro state l use_private_ip hmem hres hall
    have hex : Inventory.extract_resources state =
        .ok { hosts := none, nics := none, public_ip := none } := by
      simp only [Inventory.extract_resources, hmem, hres, if_pos]
      exact extract_loop_skip l _ hall
    refine ⟨hex, ?_⟩
    simp only [Inventory.build, hex, Inventory.inventory]

/-- C5 witness: a state with no resource list and a state with a single
unrecognised entry both leave the groups empty and the inventory empty. -/
theorem C5_empty_inventory_witness :
    (jmem "resources" (.obj .nil) = false ∧
     Inventory.extract_resources (.obj .nil) =
       .ok { hosts := none, nics := none, public_ip := none } ∧
     Inventory.build (.obj .nil) false = .ok { hostvars := [], hosts := [] }) ∧
    (jmem "resources" w5State = true ∧
     Inventory.extract_resources w5State =
       .ok { hosts := none, nics := none, public_ip := none } ∧
     Inventory.build w5State true = .ok { hostvars := [], hosts := [] }) := by
  refine ⟨⟨rfl, ?_⟩, ⟨rfl, ?_⟩⟩
  · exact C5_empty_inventory.1 (.obj .nil) false rfl
  · refine C5_empty_inventory.2 w5State
      (JVal.ofList [.obj (JVal.ofPairs [("type", .str "azurerm_subnet")])]) true rfl rfl ?_
    intro res hres
    refine ⟨.str "azurerm_subnet", ?_, by decide, by decide, by decide⟩
    simp only [JVal.ofList, JVal.ofPairs, JArr.toList, List.mem_singleton] at hres
    rw [hres]
    rfl

/-- C6: for every VM whose `adminUser` is absent or empty, the built
per-host variable mapping contains no `ansible_user` key at all; for every
VM whose `adminUser` is a non-empty value, the mapping contains
`ansible_user` equal to exactly that value. -/
theorem C6_ansible_user (use_private_ip : Bool) (inv : InventoryDoc)
    (g g2 : Groups) (host host2 : AzureVM) (nic : AzureNIC)
    (h1 : host.lookup g = .ok (host2, g2)) (h2 : host2.nic = some nic) :
    ∃ hv : HostVars,
      Inventory.add_host_to_inventory use_private_ip inv g host =
        .ok ({ hostvars := dinsert host2.name hv inv.hostvars,
               hosts := inv.hosts ++ [host2.name] }, g2) ∧
      ((host2.user = .null ∨ host2.user = .str "") → hv.ansible_user = none) ∧
      (host2.user.truthy = true → hv.ansible_user = some host2.user) := by
  refine ⟨_, add_host_ok_shape h1 h2, ?_, ?_⟩
  · rintro (hu | hu) <;> simp [hu, JVal.truthy]
  · intro hu
    simp [hu]

/-- C6 witness: a host with user `admin` gets `ansible_user`, and the
userless host from the same groups omits the key. -/
theorem C6_ansible_user_witness :
    w6Host.lookup w1G = .ok (w6HostR, w1GR) ∧ w6HostR.nic = some w1NicR ∧
    w6HostR.user = .str "admin" ∧ JVal.truthy (.str "admin") = true ∧
    (∃ hv : HostVars,
      Inventory.add_host_to_inventory false { hostvars := [], hosts := [] } w1G w6Host =
        .ok ({ hostvars := dinsert w6HostR.name hv [],
               hosts := [] ++ [w6HostR.name] }, w1GR) ∧
      ((w6HostR.user = .null ∨ w6HostR.user = .str "") → hv.ansible_user = none) ∧
      (w6HostR.user.truthy = true → hv.ansible_user = some w6HostR.user)) :=
  ⟨by decide, by decide, rfl, rfl,
   C6_ansible_user false { hostvars := [], hosts := [] } w1G w1GR w6Host w6HostR w1NicR
     (by decide) (by decide)⟩

/-- C7: resolution is idempotent — a second `lookup` on the resolved VM
against the resulting groups returns the same VM and groups — and the
extraction-plus-resolution pipeline is deterministic: run twice on the
same document it yields the identical output. -/
theorem C7_resolution_idempotent (vm vm2 : AzureVM) (g g2 : Groups)
    (h : vm.lookup g = .ok (vm2, g2)) :
    vm2.lookup g2 = .ok (vm2, g2) ∧
    (∀ (state : JVal) (use_private_ip : Bool),
      Inventory.build state use_private_ip = Inventory.build state use_private_ip) := by
  refine ⟨?_, fun _ _ => rfl⟩
  cases hn : g.nics with
  | none => simp only [AzureVM.lookup, hn] at h; cases h
  | some nics =>
    cases hnid : vm.nic_id with
    | none => simp only [AzureVM.lookup, hn, hnid] at h; cases h
    | some nid =>
      simp only [AzureVM.lookup, hn, hnid] at h
      cases hd : dget nid nics with
      | none =>
        simp only [hd] at h
        cases h
        simp only [AzureVM.lookup, hn, hnid, hd]
      | some nic =>
        simp only [hd] at h
        cases hl : nic.lookup g with
        | error e => simp only [hl] at h; cases h
        | ok nic2 =>
          simp only [hl] at h
          cases h
          have hidem : AzureNIC.lookup nic2
              { hosts := g.hosts, nics := some (dinsert nid nic2 nics),
                public_ip := g.public_ip } = .ok nic2 :=
            AzureNIC.lookup_idem hl rfl
          simp only [AzureVM.lookup, hnid, dget_dinsert_self, hidem, dinsert_dinsert]

/-- C7 witness: the example host resolves, and resolving the result again
is a no-op. -/
theorem C7_resolution_idempotent_witness :
    w1Host.lookup w1G = .ok (w1HostR, w1GR) ∧
    w1HostR.lookup w1GR = .ok (w1HostR, w1GR) ∧
    (∀ (state : JVal) (use_private_ip : Bool),
      Inventory.build state use_private_ip = Inventory.build state use_private_ip) :=
  ⟨by decide,
   (C7_resolution_idempotent w1Host w1HostR w1G w1GR (by decide)).1,
   (C7_resolution_idempotent w1Host w1HostR w1G w1GR (by decide)).2⟩

/-- C8: resolution leaves the groups unchanged except, when a NIC is
attached, the `nics` entry of the attached NIC itself, which differs only
in its resolved-reference `public_ip` field; every other key of `nics`,
the whole `public_ip` group and the whole `hosts` group are untouched. -/
theorem C8_resolution_frame (vm vm2 : AzureVM) (g g2 : Groups)
    (h : vm.lookup g = .ok (vm2, g2)) :
    g2.hosts = g.hosts ∧ g2.public_ip = g.public_ip ∧
    (g2.nics = g.nics ∨
      ∃ nid nics nic nic2, vm.nic_id = some nid ∧ g.nics = some nics ∧
        dget nid nics = some nic ∧ nic.lookup g = .ok nic2 ∧
        g2.nics = some (dinsert nid nic2 nics) ∧
        nic2.id = nic.id ∧ nic2.name = nic.name ∧ nic2.private_ip = nic.private_ip ∧
        nic2.public_ip_id = nic.public_ip_id ∧
        (∀ k, k ≠ nid → dget k (dinsert nid nic2 nics) = dget k nics)) := by
  cases hn : g.nics with
  | none => simp only [AzureVM.lookup, hn] at h; cases h
  | some nics =>
    cases hnid : vm.nic_id with
    | none => simp only [AzureVM.lookup, hn, hnid] at h; cases h
    | some nid =>
      simp only [AzureVM.lookup, hn, hnid] at h
      cases hd : dget nid nics with
      | none =>
        simp only [hd] at h
        cases h
        refine ⟨rfl, rfl, Or.inl ?_⟩
        exact hn
      | some nic =>
        simp only [hd] at h
        cases hl : nic.lookup g with
        | error e => simp only [hl] at h; cases h
        | ok nic2 =>
          simp only [hl] at h
          cases h
          obtain ⟨f1, f2, f3, f4⟩ := AzureNIC.nic_lookup_fields hl
          exact ⟨rfl, rfl, Or.inr ⟨nid, nics, nic, nic2, rfl, rfl, hd, hl, rfl,
            f1, f2, f3, f4, fun k hk => dget_dinsert_ne _ _ _ _ hk⟩⟩

/-- C8 witness: resolving the example host only rewrites the attached NIC's
`public_ip` inside the `nics` group. -/
theorem C8_resolution_frame_witness :
    w1Host.lookup w1G = .ok (w1HostR, w1GR) ∧
    (w1GR.hosts = w1G.hosts ∧ w1GR.public_ip = w1G.public_ip ∧
    (w1GR.nics = w1G.nics ∨
      ∃ nid nics nic nic2, w1Host.nic_id = some nid ∧ w1G.nics = some nics ∧
        dget nid nics = some nic ∧ nic.lookup w1G = .ok nic2 ∧
        w1GR.nics = some (dinsert nid nic2 nics) ∧
        nic2.id = nic.id ∧ nic2.name = nic.name ∧ nic2.private_ip = nic.private_ip ∧
        nic2.public_ip_id = nic.public_ip_id ∧
        (∀ k, k ≠ nid → dget k (dinsert nid nic2 nics) = dget k nics))) :=
  ⟨by decide, C8_resolution_frame w1Host w1HostR w1G w1GR (by decide)⟩

/-- A state with a single VM resource entry and no NIC entries at all. -/
def c9State : JVal := .obj (JVal.ofPairs [("resources", .arr (JVal.ofList [
  .obj (JVal.ofPairs [("type", .str "azurerm_virtual_machine"),
    ("instances", .arr (JVal.ofList [c4Vm1]))])]))])

/-- The VM record extracted from `c9State`. -/
def c9VmRec : AzureVM :=
  { id := .str "v1", name := .str "web1", nic_id := some (.str "n1"),
    user := .null, nic := none }

/-- The groups extracted from `c9State`: a `hosts` group, no `nics`. -/
def c9Gs : Groups := { hosts := some [(.str "v1", c9VmRec)], nics := none, public_ip := none }

/-- C9: resolving a VM fails with a `KeyError` whenever the groups mapping
has no `nics` group at all (even though an id missing from an existing
group is tolerated), a NIC likewise for `public_ip`; consequently `build`
on a state with at least one VM but zero extracted NIC resources aborts
with that `KeyError` instead of producing an inventory. -/
theorem C9_missing_group_fatal :
    (∀ (vm : AzureVM) (g : Groups) (nid : JVal), vm.nic_id = some nid → g.nics = none →
      vm.lookup g = .error (.keyError "nics")) ∧
    (∀ (nic : AzureNIC) (g : Groups), g.public_ip = none →
      nic.lookup g = .error (.keyError "public_ip")) ∧
    (∀ (state : JVal) (gs : Groups) (kv : JVal × AzureVM)
       (rest : List (JVal × AzureVM)) (use_private_ip : Bool),
      Inventory.extract_resources state = .ok gs → gs.hosts = some (kv :: rest) →
      gs.nics = none →
      Inventory.build state use_private_ip = .error (.keyError "nics")) := by
  refine ⟨?_, ?_, ?_⟩
  · intro vm g nid hnid hgn
    simp only [AzureVM.lookup, hgn]
  · intro nic g hgp
    simp only [AzureNIC.lookup, hgp]
  · intro state gs kv rest use_private_ip hex hhosts hnics
    simp only [Inventory.build, hex, Inventory.inventory, hhosts, Inventory.run_hosts,
      Inventory.add_host_to_inventory, AzureVM.lookup, hnics]

/-- C9 witness: the one-VM state without NIC resources aborts. -/
theorem C9_missing_group_fatal_witness :
    (c9VmRec.nic_id = some (.str "n1") ∧ c9Gs.nics = none ∧
     c9VmRec.lookup c9Gs = .error (.keyError "nics")) ∧
    (c9Gs.public_ip = none ∧ w1Nic.lookup c9Gs = .error (.keyError "public_ip")) ∧
    (Inventory.extract_resources c9State = .ok c9Gs ∧
     c9Gs.hosts = some [(.str "v1", c9VmRec)] ∧ c9Gs.nics = none ∧
     Inventory.build c9State false = .error (.keyError "nics")) :=
  ⟨⟨rfl, rfl, C9_missing_group_fatal.1 c9VmRec c9Gs (.str "n1") rfl rfl⟩,
   ⟨rfl, C9_missing_group_fatal.2.1 w1Nic c9Gs rfl⟩,
   ⟨by decide, rfl, rfl,
    C9_missing_group_fatal.2.2 c9State c9Gs (.str "v1", c9VmRec) [] false (by decide) rfl rfl⟩⟩

/-- C10: a VM built from an attribute mapping whose `network_interface_ids`
list is empty never has its `nic_id` attribute set, and a NIC built from a
mapping with an empty `ip_configuration` never has `public_ip_id` set; for
both, a subsequent `lookup` raises (either the group `KeyError` or the
`AttributeError` on the unset reference id) rather than leaving the
resolved reference absent. -/
theorem C10_empty_reference_fatal :
    (∀ (res attr : JVal) (vm : AzureVM),
      AzureVM.fromInstance res = .ok vm → jget "attributes" res = .ok attr →
      jget "network_interface_ids" attr = .ok (.arr .nil) → vm.nic_id = none) ∧
    (∀ (vm : AzureVM) (g : Groups), vm.nic_id = none →
      ∃ e, vm.lookup g = .error e) ∧
    (∀ (res attr : JVal) (nic : AzureNIC),
      AzureNIC.fromInstance res = .ok nic → jget "attributes" res = .ok attr →
      jget "ip_configuration" attr = .ok (.arr .nil) → nic.public_ip_id = none) ∧
    (∀ (nic : AzureNIC) (g : Groups), nic.public_ip_id = none →
      ∃ e, nic.lookup g = .error e) := by
  refine ⟨?_, ?_, ?_, ?_⟩
  · intro res attr vm h hattr hnids
    have hnid0 : AzureVM.read_nic_id attr = .ok none := by
      simp [AzureVM.read_nic_id, hnids, jlen, JArr.length]
    simp only [AzureVM.fromInstance, hattr, hnid0] at h
    cases hid : jget "id" attr with
    | error e => simp only [hid] at h; cases h
    | ok i =>
      simp only [hid] at h
      cases hname : jget "name" attr with
      | error e => simp only [hname] at h; cases h
      | ok n =>
        simp only [hname] at h
        cases hu : AzureVM.read_user attr with
        | error e => simp only [hu] at h; cases h
        | ok u =>
          simp only [hu] at h
          cases h
          rfl
  · intro vm g hnil
    cases hgn : g.nics with
    | none => exact ⟨.keyError "nics", by simp only [AzureVM.lookup, hgn]⟩
    | some nics => exact ⟨.attrError "nic_id", by simp only [AzureVM.lookup, hgn, hnil]⟩
  · intro res attr nic h hattr hipc
    have hpid0 : AzureNIC.read_public_ip_id attr = .ok none := by
      simp [AzureNIC.read_public_ip_id, hipc, JVal.truthy]
    simp only [AzureNIC.fromInstance, hattr, hpid0] at h
    cases hid : jget "id" attr with
    | error e => simp only [hid] at h; cases h
    | ok i =>
      simp only [hid] at h
      cases hname : jget "name" attr with
      | error e => simp only [hname] at h; cases h
      | ok n =>
        simp only [hname] at h
        cases hp : jget "private_ip_address" attr with
        | error e => simp only [hp] at h; cases h
        | ok p =>
          simp only [hp] at h
          cases h
          rfl
  · intro nic g hnil
    cases hgp : g.public_ip with
    | none => exact ⟨.keyError "public_ip", by simp only [AzureNIC.lookup, hgp]⟩
    | some ips => exact ⟨.attrError "public_ip_id", by simp only [AzureNIC.lookup, hgp, hnil]⟩

/-- The VM record constructed from `w3VmInst` (empty NIC-id list). -/
def w10Vm : AzureVM :=
  { id := .str "v1", name := .str "web1", nic_id := none, user := .null, nic := none }

/-- The NIC record constructed from `w3NicInst` (empty ip_configuration). -/
def w10Nic : AzureNIC :=
  { id := .str "n1", name := .str "nic1", private_ip := .str "10.0.0.5",
    public_ip := none, public_ip_id := none }

/-- C10 witness: the concrete empty-list instances leave the reference ids
unset and their lookups raise. -/
theorem C10_empty_reference_fatal_witness :
    (AzureVM.fromInstance w3VmInst = .ok w10Vm ∧ w10Vm.nic_id = none ∧
     (∃ e, w10Vm.lookup c2G = .error e)) ∧
    (AzureNIC.fromInstance w3NicInst = .ok w10Nic ∧ w10Nic.public_ip_id = none ∧
     (∃ e, w10Nic.lookup c2G = .error e)) :=
  ⟨⟨by decide,
    C10_empty_reference_fatal.1 w3VmInst w3VmAttr w10Vm (by decide) rfl rfl,
    C10_empty_reference_fatal.2.1 w10Vm c2G rfl⟩,
   ⟨by decide,
    C10_empty_reference_fatal.2.2.1 w3NicInst w3NicAttr w10Nic (by decide) rfl rfl,
    C10_empty_reference_fatal.2.2.2 w10Nic c2G rfl⟩⟩
